import Mathlib

/-!
Shallow embedding of the order-lifecycle core of the backend-Solandre
repository: order creation (`crear_pedido`), customer cancellation
(`cancelar_pedido`), admin cancellation (`cancelar_pedido_admin`), admin
state update (`actualizar_estado_pedido`), courier pickup (`tomar_pedido`),
the unique-token generator (`generar_token_unico`) and the in-memory
notification bus (`GestorNotificaciones.crear_evento`,
`GestorNotificaciones.obtener_eventos_recientes`).

Conventions of the embedding:
* the database session is an explicit `DB` value threaded through each
  endpoint; `db.query(X).filter(...).first()` becomes `List.find?`;
* mutating an ORM object returned by `first()` becomes `updateFirst`
  (update the first matching row), which matches the identity-map
  semantics of the SQLAlchemy session;
* endpoints return `Except (Err × DB) ...`; an `HTTPException` raised at
  some point of the handler carries the session state at that point
  (the transaction is never committed on an exception, so that state is
  what the rollback restores);
* `datetime` instants are abstracted as natural numbers, `Decimal`
  amounts as integers; Python `int` stock counters are `Int` (they can
  go negative);
* `random.choices(caracteres, k=longitud)` is modelled by a stream
  `r : Nat → Fin 36` of draws from the 36-character alphabet: the
  candidate of attempt `i` is built from draws `i*longitud ..`.
-/

namespace Solandre

/-- `EstadoDelPedido` from `app/models/enums.py`. -/
inductive EstadoDelPedido : Type
  | PENDIENTE
  | CONFIRMADO
  | EN_COCINA
  | LISTO_PARA_ENTREGA
  | EN_REPARTO
  | ENTREGADO
  | CANCELADO
deriving DecidableEq

/-- `MetodoPago` from `app/models/enums.py`. -/
inductive MetodoPago : Type
  | EFECTIVO
  | QR
deriving DecidableEq

/-- `MenuDia` rows (`app/models/menu_dia.py`), restricted to the fields the
order-lifecycle code reads or writes. -/
structure MenuDia : Type where
  menu_dia_id : Nat
  precio_menu : Int
  publicado : Bool
  cantidad_disponible : Int
deriving DecidableEq

/-- `Usuario` rows (`app/models/usuario.py`), restricted to the fields the
order-lifecycle code reads. -/
structure Usuario : Type where
  usuario_id : Nat
  rol_id : Nat
  zona_reparto_id : Option Nat
deriving DecidableEq

/-- `Pedido` rows (`app/models/pedido.py`). -/
structure Pedido : Type where
  pedido_id : Nat
  usuario_id : Nat
  zona_id : Nat
  token_recoger : String
  total_pedido : Int
  metodo_pago : MetodoPago
  esta_pagado : Bool
  estado : EstadoDelPedido
  delivery_asignado_id : Option Nat
  fecha_pedido : Option Nat
  fecha_confirmado : Option Nat
  fecha_listo_cocina : Option Nat
  fecha_en_reparto : Option Nat
  fecha_entrega : Option Nat
deriving DecidableEq

/-- `PedidoItem` rows (`app/models/pedido_item.py`). -/
structure PedidoItem : Type where
  item_id : Nat
  pedido_id : Nat
  menu_dia_id : Nat
  cantidad : Nat
  precio_unitario : Int
deriving DecidableEq

/-- `ItemExclusion` rows (`app/models/item_exclusion.py`). -/
structure ItemExclusion : Type where
  item_id : Nat
  ingrediente_id : Nat
deriving DecidableEq

/-- The relational state the order-lifecycle endpoints touch. -/
structure DB : Type where
  zonas : List Nat
  menus : List MenuDia
  usuarios : List Usuario
  pedidos : List Pedido
  items : List PedidoItem
  exclusiones : List ItemExclusion
deriving DecidableEq

/-- The error taxonomy raised by the embedded endpoints (each constructor is
one `raise HTTPException` site of the source). -/
inductive Err : Type
  | ZonaNotFound
  | MenuNotFound (id : Nat)
  | MenuNotPublished (id : Nat)
  | InsufficientStock (id : Nat)
  | TokenExhausted
  | PedidoNotFound
  | Forbidden
  | CannotCancelState (e : EstadoDelPedido)
  | AlreadyCancelled
  | CannotCancelDelivered
  | NotAssigned
  | InvalidTransition (e : EstadoDelPedido)
deriving DecidableEq

/-- Replace the first element satisfying `p` by its image under `f`
(mutation of the single ORM object returned by `.first()`). -/
def updateFirst {α : Type} (p : α → Bool) (f : α → α) : List α → List α
  | [] => []
  | a :: rest => if p a then f a :: rest else a :: updateFirst p f rest

/-- The stock of the offering `id` as the code sees it
(`db.query(MenuDia).filter(menu_dia_id == id).first().cantidad_disponible`);
`none` when no such row exists. -/
def stockOf (menus : List MenuDia) (id : Nat) : Option Int :=
  (menus.find? (fun m => m.menu_dia_id == id)).map (fun m => m.cantidad_disponible)

/-- The `Pedido` row with the given id, as `first()` returns it. -/
def pedidoOf (db : DB) (pid : Nat) : Option Pedido :=
  db.pedidos.find? (fun p => p.pedido_id == pid)

/-! ## Token generator (`app/utils/token_generator.py`) -/

/-- `string.ascii_uppercase + string.digits`. -/
def caracteres : List Char :=
  "ABCDEFGHIJKLMNOPQRSTUVWXYZ0123456789".toList

/-- The character the `i`-th random draw selects. -/
def letraDe (i : Fin 36) : Char := caracteres.getD i.val "A".toList.head!

/-- The candidate produced by `random.choices(caracteres, k=longitud)` on
attempt number `intento`, given the stream `r` of raw draws. -/
def tokenCandidato (r : Nat → Fin 36) (intento longitud : Nat) : String :=
  String.mk ((List.range longitud).map (fun j => letraDe (r (intento * longitud + j))))

/-- The retry loop of `generar_token_unico`: `restantes` attempts left,
current attempt number `intento`. -/
def tokenLoop (db : DB) (r : Nat → Fin 36) (longitud intento restantes : Nat) :
    Except Err String :=
  match restantes with
  | 0 => .error .TokenExhausted
  | n + 1 =>
    let token := tokenCandidato r intento longitud
    if db.pedidos.any (fun p => p.token_recoger == token) then
      tokenLoop db r longitud (intento + 1) n
    else
      .ok token

/-- `generar_token_unico(db, longitud)` with `max_intentos = 100`. -/
def generar_token_unico (db : DB) (r : Nat → Fin 36) (longitud : Nat) :
    Except Err String :=
  tokenLoop db r longitud 0 100

/-! ## Order creation (`app/routers/pedido.py`, `crear_pedido`) -/

/-- One line of `CrearPedidoRequest` (`app/schemas/pedido.py`,
`ItemPedidoRequest`; the schema constrains `1 ≤ cantidad ≤ 10`). -/
structure ItemPedidoRequest : Type where
  menu_dia_id : Nat
  cantidad : Nat
  exclusiones : List Nat
deriving DecidableEq

/-- `CrearPedidoRequest`, restricted to the fields the handler logic reads. -/
structure CrearPedidoRequest : Type where
  zona_id : Nat
  metodo_pago : MetodoPago
  items : List ItemPedidoRequest
deriving DecidableEq

/-- Step 2 of `crear_pedido`: the validation loop over `request.items`,
accumulating the total and the validated `(menu, item)` pairs. -/
def validarItems (db : DB) : List ItemPedidoRequest →
    Except Err (Int × List (MenuDia × ItemPedidoRequest))
  | [] => .ok (0, [])
  | item :: rest =>
    match db.menus.find? (fun m => m.menu_dia_id == item.menu_dia_id) with
    | none => .error (.MenuNotFound item.menu_dia_id)
    | some menu =>
      if !menu.publicado then .error (.MenuNotPublished menu.menu_dia_id)
      else if menu.cantidad_disponible < (item.cantidad : Int) then
        .error (.InsufficientStock menu.menu_dia_id)
      else
        match validarItems db rest with
        | .error e => .error e
        | .ok (total, listaRest) =>
          .ok (menu.precio_menu * (item.cantidad : Int) + total, (menu, item) :: listaRest)

/-- Next surrogate id for a `Pedido` (the autoincrement key `flush()`
assigns). -/
def nextPedidoId (db : DB) : Nat :=
  (db.pedidos.map (fun p => p.pedido_id)).foldr Nat.max 0 + 1

/-- Next surrogate id for a `PedidoItem`. -/
def nextItemId (db : DB) : Nat :=
  (db.items.map (fun it => it.item_id)).foldr Nat.max 0 + 1

/-- Step 6 of `crear_pedido`: create each item row with its exclusion rows
and decrement the offering's stock (`menu.cantidad_disponible -= cantidad`
on the session object, i.e. on the first row with that id). -/
def aplicarItems (pid : Nat) : DB → Nat → List (MenuDia × ItemPedidoRequest) → DB
  | db, _, [] => db
  | db, itemId, (menu, item) :: rest =>
    let nuevoItem : PedidoItem :=
      { item_id := itemId, pedido_id := pid, menu_dia_id := menu.menu_dia_id,
        cantidad := item.cantidad, precio_unitario := menu.precio_menu }
    let exls := item.exclusiones.map (fun ing => ItemExclusion.mk itemId ing)
    let db1 : DB :=
      { db with
        items := db.items ++ [nuevoItem],
        exclusiones := db.exclusiones ++ exls,
        menus := updateFirst (fun m => m.menu_dia_id == menu.menu_dia_id)
          (fun m => { m with cantidad_disponible := m.cantidad_disponible - (item.cantidad : Int) })
          db.menus }
    aplicarItems pid db1 (itemId + 1) rest

/-- `crear_pedido` (`app/routers/pedido.py`): zone check, validation loop,
token generation, delivery lookup, persist header, persist lines and
exclusions while decrementing stock.  `uid` is the authenticated customer,
`now` the clock. -/
def crear_pedido (db : DB) (req : CrearPedidoRequest) (uid : Nat)
    (r : Nat → Fin 36) (now : Nat) : Except (Err × DB) (DB × Pedido) :=
  if !(db.zonas.contains req.zona_id) then .error (.ZonaNotFound, db)
  else
    match validarItems db req.items with
    | .error e => .error (e, db)
    | .ok (total_pedido, items_validados) =>
      match generar_token_unico db r 8 with
      | .error e => .error (e, db)
      | .ok token =>
        let delivery := db.usuarios.find?
          (fun u => u.rol_id == 3 && u.zona_reparto_id == some req.zona_id)
        let pid := nextPedidoId db
        let nuevo_pedido : Pedido :=
          { pedido_id := pid, usuario_id := uid, zona_id := req.zona_id,
            token_recoger := token, total_pedido := total_pedido,
            metodo_pago := req.metodo_pago, esta_pagado := false,
            estado := .PENDIENTE,
            delivery_asignado_id := delivery.map (fun d => d.usuario_id),
            fecha_pedido := some now, fecha_confirmado := none,
            fecha_listo_cocina := none, fecha_en_reparto := none,
            fecha_entrega := none }
        let db1 : DB := { db with pedidos := db.pedidos ++ [nuevo_pedido] }
        let db2 := aplicarItems pid db1 (nextItemId db) items_validados
        .ok (db2, nuevo_pedido)

/-! ## Restock helper shared by the three cancellation paths -/

/-- The restock loop of `cancelar_pedido`, `cancelar_pedido_admin` and the
`CANCELADO` branch of `actualizar_estado_pedido`: for each item, look up
its offering and, if it still exists, add the item's quantity back. -/
def restockItems : List MenuDia → List PedidoItem → List MenuDia
  | menus, [] => menus
  | menus, item :: rest =>
    let menus1 :=
      match menus.find? (fun m => m.menu_dia_id == item.menu_dia_id) with
      | some _ =>
        updateFirst (fun m => m.menu_dia_id == item.menu_dia_id)
          (fun m => { m with cantidad_disponible := m.cantidad_disponible + (item.cantidad : Int) })
          menus
      | none => menus
    restockItems menus1 rest

/-- Total quantity the items of `items` reserve against offering `id`. -/
def sumCantidad (id : Nat) : List PedidoItem → Int
  | [] => 0
  | it :: rest =>
    (if it.menu_dia_id == id then (it.cantidad : Int) else 0) + sumCantidad id rest

/-! ## Customer cancellation (`app/routers/pedido.py`, `cancelar_pedido`) -/

/-- `cancelar_pedido` (customer `DELETE /pedidos/{id}`): only the owner, only
in `PENDIENTE`; restocks each surviving offering and deletes the order with
its items (and, by `ondelete=CASCADE`, their exclusion rows). -/
def cancelar_pedido (db : DB) (pedido_id : Nat) (uid : Nat) :
    Except (Err × DB) DB :=
  match db.pedidos.find? (fun p => p.pedido_id == pedido_id) with
  | none => .error (.PedidoNotFound, db)
  | some pedido =>
    if pedido.usuario_id ≠ uid then .error (.Forbidden, db)
    else if pedido.estado ≠ .PENDIENTE then
      .error (.CannotCancelState pedido.estado, db)
    else
      let items_pedido := db.items.filter (fun it => it.pedido_id == pedido_id)
      let menus1 := restockItems db.menus items_pedido
      let removedIds := items_pedido.map (fun it => it.item_id)
      let db1 : DB :=
        { db with
          menus := menus1,
          pedidos := db.pedidos.filter (fun p => !(p.pedido_id == pedido_id)),
          items := db.items.filter (fun it => !(it.pedido_id == pedido_id)),
          exclusiones := db.exclusiones.filter
            (fun e => !(removedIds.contains e.item_id)) }
      .ok db1

/-! ## Admin cancellation (`app/routers/admin.py`, `cancelar_pedido_admin`) -/

/-- `cancelar_pedido_admin` (`PATCH /admin/pedidos/{id}/cancelar`):
`verificar_admin`, reject already-cancelled and delivered orders, restock
surviving offerings, set the state to `CANCELADO`. -/
def cancelar_pedido_admin (db : DB) (pedido_id : Nat) (caller : Usuario) :
    Except (Err × DB) DB :=
  if caller.rol_id ≠ 1 then .error (.Forbidden, db)
  else
    match db.pedidos.find? (fun p => p.pedido_id == pedido_id) with
    | none => .error (.PedidoNotFound, db)
    | some pedido =>
      if pedido.estado = .CANCELADO then .error (.AlreadyCancelled, db)
      else if pedido.estado = .ENTREGADO then .error (.CannotCancelDelivered, db)
      else
        let items_pedido := db.items.filter (fun it => it.pedido_id == pedido_id)
        let menus1 := restockItems db.menus items_pedido
        let db1 : DB :=
          { db with
            menus := menus1,
            pedidos := updateFirst (fun p => p.pedido_id == pedido_id)
              (fun p => { p with estado := .CANCELADO }) db.pedidos }
        .ok db1

/-! ## Admin state update (`app/routers/admin.py`, `actualizar_estado_pedido`) -/

/-- The unconditional timestamp block of `actualizar_estado_pedido` (it sits
outside the same-state guard in the source). -/
def stampFecha (nuevo : EstadoDelPedido) (ahora : Nat) (p : Pedido) : Pedido :=
  if nuevo = .CONFIRMADO then { p with fecha_confirmado := some ahora }
  else if nuevo = .LISTO_PARA_ENTREGA then { p with fecha_listo_cocina := some ahora }
  else if nuevo = .EN_REPARTO then { p with fecha_en_reparto := some ahora }
  else if nuevo = .ENTREGADO then { p with fecha_entrega := some ahora }
  else p

/-- `actualizar_estado_pedido` (`PATCH /admin/pedidos/{id}/estado`):
`verificar_admin`; if the state is unchanged the restock branch is skipped
(`pass`); if the target is `CANCELADO` (and the state differs) restock;
then — unconditionally — stamp the timestamp matching the target state and
assign the new state. -/
def actualizar_estado_pedido (db : DB) (pedido_id : Nat)
    (nuevo_estado : EstadoDelPedido) (caller : Usuario) (ahora : Nat) :
    Except (Err × DB) DB :=
  if caller.rol_id ≠ 1 then .error (.Forbidden, db)
  else
    match db.pedidos.find? (fun p => p.pedido_id == pedido_id) with
    | none => .error (.PedidoNotFound, db)
    | some pedido =>
      let menus1 :=
        if pedido.estado = nuevo_estado then db.menus
        else if nuevo_estado = .CANCELADO then
          if pedido.estado ≠ .CANCELADO then
            restockItems db.menus (db.items.filter (fun it => it.pedido_id == pedido_id))
          else db.menus
        else db.menus
      let db1 : DB :=
        { db with
          menus := menus1,
          pedidos := updateFirst (fun p => p.pedido_id == pedido_id)
            (fun p => { stampFecha nuevo_estado ahora p with estado := nuevo_estado })
            db.pedidos }
      .ok db1

/-! ## Courier pickup (`app/routers/delivery.py`, `tomar_pedido`) -/

/-- `tomar_pedido` (`PATCH /delivery/pedidos/{id}/tomar`): role gate
(admin or courier), ownership check against `delivery_asignado_id`, source
state must be `LISTO_PARA_ENTREGA`; on success the state becomes
`EN_REPARTO` and `fecha_en_reparto` is stamped. -/
def tomar_pedido (db : DB) (pedido_id : Nat) (caller : Usuario) (now : Nat) :
    Except (Err × DB) DB :=
  if !(caller.rol_id == 1 || caller.rol_id == 3) then .error (.Forbidden, db)
  else
    match db.pedidos.find? (fun p => p.pedido_id == pedido_id) with
    | none => .error (.PedidoNotFound, db)
    | some pedido =>
      if pedido.delivery_asignado_id ≠ some caller.usuario_id then
        .error (.NotAssigned, db)
      else if pedido.estado ≠ .LISTO_PARA_ENTREGA then
        .error (.InvalidTransition pedido.estado, db)
      else
        let db1 : DB :=
          { db with
            pedidos := updateFirst (fun p => p.pedido_id == pedido_id)
              (fun p => { p with estado := .EN_REPARTO, fecha_en_reparto := some now })
              db.pedidos }
        .ok db1

/-! ## Notification bus (`app/utils/notificaciones.py`) -/

/-- `Evento` (`app/utils/notificaciones.py`), without the free-form `data`
payload (never read by the bus logic); the `evento_id` string is determined
by `contador` and `fecha_creacion`, which are kept as fields. -/
structure Evento : Type where
  contador : Nat
  tipo : String
  destinatario_rol : Nat
  destinatario_id : Option Nat
  titulo : String
  mensaje : String
  fecha_creacion : Nat
deriving DecidableEq

/-- State of `GestorNotificaciones`: per-role deques (total map, the source
initialises keys 1–4), per-user deques (association list with unique keys),
the id counter, and the two configuration bounds. -/
structure GestorNotificaciones : Type where
  max_eventos : Nat
  tiempo_vida : Nat
  eventos_por_rol : Nat → List Evento
  eventos_por_usuario : List (Nat × List Evento)
  contador : Nat

/-- A fresh `GestorNotificaciones(max_eventos=1000, tiempo_vida_minutos=60)`. -/
def gestorInicial : GestorNotificaciones :=
  { max_eventos := 1000, tiempo_vida := 60,
    eventos_por_rol := fun _ => [], eventos_por_usuario := [], contador := 0 }

/-- `deque(maxlen=n).append`: append on the right, evicting from the left
when the bound is exceeded. -/
def dequeAppend (maxlen : Nat) (l : List Evento) (e : Evento) : List Evento :=
  let l1 := l ++ [e]
  if maxlen < l1.length then l1.drop (l1.length - maxlen) else l1

/-- Append `e` to the per-user deque of `d`, creating the deque if absent. -/
def userAppend (maxlen : Nat) (m : List (Nat × List Evento)) (d : Nat)
    (e : Evento) : List (Nat × List Evento) :=
  if (m.find? (fun kv => kv.1 == d)).isSome then
    updateFirst (fun kv => kv.1 == d) (fun kv => (kv.1, dequeAppend maxlen kv.2 e)) m
  else
    m ++ [(d, [e])]

/-- `GestorNotificaciones.crear_evento`: build the event, append it to the
role buffer, and — when `destinatario_id` is set (Python truthiness: `None`
and `0` both skip) — also to that user's buffer. -/
def crear_evento (g : GestorNotificaciones) (tipo : String)
    (destinatario_rol : Nat) (titulo mensaje : String)
    (destinatario_id : Option Nat) (now : Nat) : Evento × GestorNotificaciones :=
  let c := g.contador + 1
  let evento : Evento :=
    { contador := c, tipo := tipo, destinatario_rol := destinatario_rol,
      destinatario_id := destinatario_id, titulo := titulo,
      mensaje := mensaje, fecha_creacion := now }
  let porRol := fun rid =>
    if rid = destinatario_rol then dequeAppend g.max_eventos (g.eventos_por_rol rid) evento
    else g.eventos_por_rol rid
  let porUsuario :=
    match destinatario_id with
    | some d =>
      if d ≠ 0 then userAppend g.max_eventos g.eventos_por_usuario d evento
      else g.eventos_por_usuario
    | none => g.eventos_por_usuario
  (evento,
    { g with
      eventos_por_rol := porRol,
      eventos_por_usuario := porUsuario,
      contador := c })

/-- The sort key of the query: newest first (`sort(key=fecha_creacion,
reverse=True)`); the embedding uses a stable insertion sort, which produces
the same list as Python's stable sort under this comparator. -/
def fechaGe (a b : Evento) : Prop := b.fecha_creacion ≤ a.fecha_creacion

instance : DecidableRel fechaGe := fun a b => Nat.decLe b.fecha_creacion a.fecha_creacion

instance : IsTotal Evento fechaGe := ⟨fun a b => Nat.le_total b.fecha_creacion a.fecha_creacion⟩

instance : IsTrans Evento fechaGe := ⟨fun _ _ _ h1 h2 => Nat.le_trans h2 h1⟩

/-- The membership filter of `obtener_eventos_recientes`. -/
def eventoPasa (desde : Nat) (tipo : Option String) (usuario_id : Option Nat)
    (e : Evento) : Bool :=
  desde ≤ e.fecha_creacion
    && (tipo.isNone || tipo == some e.tipo)
    && (e.destinatario_id.isNone || e.destinatario_id == usuario_id)

/-- The personal-events contribution of the query: the caller's buffer when
`usuario_id` is truthy (`if usuario_id and usuario_id in ...`) and present. -/
def personalesDe (g : GestorNotificaciones) (usuario_id : Option Nat) :
    List Evento :=
  match usuario_id with
  | some u =>
    if u ≠ 0 then
      match g.eventos_por_usuario.find? (fun kv => kv.1 == u) with
      | some kv => kv.2
      | none => []
    else []
  | none => []

/-- `GestorNotificaciones.obtener_eventos_recientes`: personal events (when
`usuario_id` is truthy and has a buffer) followed by the whole role buffer,
filtered by date, type and target user, sorted newest-first (stable, like
Python's `sort`), truncated to `limit`.  `desde = none` defaults to five
minutes before `now`. -/
def obtener_eventos_recientes (g : GestorNotificaciones) (rol_id : Nat)
    (usuario_id : Option Nat) (desde : Option Nat) (tipo : Option String)
    (limit : Nat) (now : Nat) : List Evento :=
  let desde1 := match desde with | some d => d | none => now - 5
  let eventos := personalesDe g usuario_id ++ g.eventos_por_rol rol_id
  let eventos_filtrados := eventos.filter (eventoPasa desde1 tipo usuario_id)
  let ordenados := List.insertionSort fechaGe eventos_filtrados
  ordenados.take limit

/-! ## Helper lemmas about `updateFirst`, stock and restocking -/

theorem updateFirst_find_self {α : Type} (p : α → Bool) (f : α → α)
    (hf : ∀ a, p (f a) = p a) (l : List α) :
    (updateFirst p f l).find? p = (l.find? p).map f := by
  induction l with
  | nil => rfl
  | cons a rest ih =>
    simp only [updateFirst]
    by_cases hp : p a = true
    · rw [if_pos hp, List.find?_cons_of_pos _ (by rw [hf]; exact hp),
        List.find?_cons_of_pos _ hp]
      rfl
    · rw [if_neg hp, List.find?_cons_of_neg _ hp, List.find?_cons_of_neg _ hp, ih]

theorem updateFirst_find_disjoint {α : Type} (p q : α → Bool) (f : α → α)
    (hq : ∀ a, q (f a) = q a) (hdisj : ∀ a, p a = true → q a = false)
    (l : List α) : (updateFirst p f l).find? q = l.find? q := by
  induction l with
  | nil => rfl
  | cons a rest ih =>
    simp only [updateFirst]
    by_cases hp : p a = true
    · have hqa : q a = false := hdisj a hp
      rw [if_pos hp, List.find?_cons_of_neg _ (by simp [hq, hqa]),
        List.find?_cons_of_neg _ (by simp [hqa])]
    · rw [if_neg hp]
      by_cases hqa : q a = true
      · rw [List.find?_cons_of_pos _ hqa, List.find?_cons_of_pos _ hqa]
      · rw [List.find?_cons_of_neg _ hqa, List.find?_cons_of_neg _ hqa, ih]

theorem stockOf_update_self (menus : List MenuDia) (id : Nat) (g : Int → Int) :
    stockOf (updateFirst (fun m => m.menu_dia_id == id)
      (fun m => { m with cantidad_disponible := g m.cantidad_disponible }) menus) id
      = (stockOf menus id).map g := by
  have h := updateFirst_find_self (fun m => m.menu_dia_id == id)
    (fun m => { m with cantidad_disponible := g m.cantidad_disponible })
    (fun a => rfl) menus
  unfold stockOf
  rw [h]
  cases menus.find? (fun m => m.menu_dia_id == id) <;> rfl

theorem stockOf_update_other (menus : List MenuDia) (id id2 : Nat)
    (hne : id2 ≠ id) (g : Int → Int) :
    stockOf (updateFirst (fun m => m.menu_dia_id == id)
      (fun m => { m with cantidad_disponible := g m.cantidad_disponible }) menus) id2
      = stockOf menus id2 := by
  have h := updateFirst_find_disjoint (fun m => m.menu_dia_id == id)
    (fun m => m.menu_dia_id == id2)
    (fun m => { m with cantidad_disponible := g m.cantidad_disponible })
    (fun a => rfl)
    (fun a ha => by
      have h1 : a.menu_dia_id = id := by simpa using ha
      simp only [h1, beq_eq_false_iff_ne, ne_eq]
      omega) menus
  unfold stockOf
  rw [h]

theorem stockOf_restockItems (items : List PedidoItem) :
    ∀ (menus : List MenuDia) (id : Nat),
      stockOf (restockItems menus items) id
        = (stockOf menus id).map (fun s => s + sumCantidad id items) := by
  induction items with
  | nil =>
    intro menus id
    simp only [restockItems, sumCantidad]
    cases stockOf menus id <;> simp
  | cons it rest ih =>
    intro menus id
    simp only [restockItems]
    cases hfind : menus.find? (fun m => m.menu_dia_id == it.menu_dia_id) with
    | none =>
      dsimp only
      rw [ih]
      by_cases hid : it.menu_dia_id = id
      · subst hid
        have hnone : stockOf menus it.menu_dia_id = none := by
          simp [stockOf, hfind]
        rw [hnone]
        rfl
      · have hsum : sumCantidad id (it :: rest) = sumCantidad id rest := by
          simp [sumCantidad, hid]
        rw [hsum]
    | some m =>
      dsimp only
      rw [ih]
      by_cases hid : it.menu_dia_id = id
      · subst hid
        rw [stockOf_update_self menus it.menu_dia_id
          (fun s => s + (it.cantidad : Int))]
        cases stockOf menus it.menu_dia_id <;>
          simp [sumCantidad, add_assoc]
      · rw [stockOf_update_other menus it.menu_dia_id id (fun h => hid h.symm)
          (fun s => s + (it.cantidad : Int))]
        have hsum : sumCantidad id (it :: rest) = sumCantidad id rest := by
          simp [sumCantidad, hid]
        rw [hsum]

theorem find?_pedido_update (pedidos : List Pedido) (pid : Nat)
    (f : Pedido → Pedido) (hf : ∀ p, (f p).pedido_id = p.pedido_id) :
    (updateFirst (fun p => p.pedido_id == pid) f pedidos).find?
        (fun p => p.pedido_id == pid)
      = (pedidos.find? (fun p => p.pedido_id == pid)).map f :=
  updateFirst_find_self _ _ (fun a => by simp [hf]) _

/-! ## Lemmas about the token generator -/

theorem tokenCandidato_length (r : Nat → Fin 36) (intento longitud : Nat) :
    (tokenCandidato r intento longitud).length = longitud := by
  simp [tokenCandidato, String.length]

theorem letraDe_mem (i : Fin 36) : letraDe i ∈ caracteres := by
  fin_cases i <;> decide

theorem tokenCandidato_chars (r : Nat → Fin 36) (intento longitud : Nat) :
    ∀ c ∈ (tokenCandidato r intento longitud).data, c ∈ caracteres := by
  intro c hc
  have hc2 : c ∈ (List.range longitud).map
      (fun j => letraDe (r (intento * longitud + j))) := hc
  rw [List.mem_map] at hc2
  obtain ⟨j, hj, hcj⟩ := hc2
  rw [← hcj]
  exact letraDe_mem _

theorem tokenLoop_ok_spec (db : DB) (r : Nat → Fin 36) (longitud : Nat) :
    ∀ (restantes intento : Nat) (t : String),
      tokenLoop db r longitud intento restantes = .ok t →
      (∃ i, t = tokenCandidato r i longitud)
        ∧ ∀ p ∈ db.pedidos, p.token_recoger ≠ t := by
  intro restantes
  induction restantes with
  | zero => intro intento t h; exact absurd h (by simp [tokenLoop])
  | succ n ih =>
    intro intento t h
    simp only [tokenLoop] at h
    by_cases hany : db.pedidos.any
        (fun p => p.token_recoger == tokenCandidato r intento longitud) = true
    · rw [if_pos hany] at h
      exact ih _ _ h
    · rw [if_neg hany] at h
      cases h
      refine ⟨⟨intento, rfl⟩, fun p hp heq => hany ?_⟩
      rw [List.any_eq_true]
      exact ⟨p, hp, by simp [heq]⟩

theorem tokenLoop_error_spec (db : DB) (r : Nat → Fin 36) (longitud : Nat) :
    ∀ (restantes intento : Nat) (e : Err),
      tokenLoop db r longitud intento restantes = .error e →
      e = .TokenExhausted ∧
        ∀ i, intento ≤ i → i < intento + restantes →
          ∃ p ∈ db.pedidos, p.token_recoger = tokenCandidato r i longitud := by
  intro restantes
  induction restantes with
  | zero =>
    intro intento e h
    simp only [tokenLoop] at h
    cases h
    exact ⟨rfl, fun i h1 h2 => absurd h2 (by omega)⟩
  | succ n ih =>
    intro intento e h
    simp only [tokenLoop] at h
    by_cases hany : db.pedidos.any
        (fun p => p.token_recoger == tokenCandidato r intento longitud) = true
    · rw [if_pos hany] at h
      obtain ⟨he, hall⟩ := ih _ _ h
      refine ⟨he, fun i h1 h2 => ?_⟩
      by_cases hi : i = intento
      · subst hi
        rw [List.any_eq_true] at hany
        obtain ⟨p, hp, hbeq⟩ := hany
        exact ⟨p, hp, by simpa using hbeq⟩
      · exact hall i (by omega) (by omega)
    · rw [if_neg hany] at h
      exact Except.noConfusion h

/-- Decidable equality on `Except`, used to evaluate the embedded endpoints
on concrete inputs. -/
instance exceptDecidableEq {ε α : Type} [DecidableEq ε] [DecidableEq α] :
    DecidableEq (Except ε α) := fun x y =>
  match x, y with
  | .ok a, .ok b =>
    if h : a = b then .isTrue (by rw [h])
    else .isFalse (fun hc => h (by injection hc))
  | .ok _, .error _ => .isFalse (fun hc => Except.noConfusion hc)
  | .error _, .ok _ => .isFalse (fun hc => Except.noConfusion hc)
  | .error e, .error f =>
    if h : e = f then .isTrue (by rw [h])
    else .isFalse (fun hc => h (by injection hc))

/-! ## Concrete fixtures used by evaluations and witnesses -/

/-- A draw stream that always selects index 0 (the letter `A`). -/
def rCero : Nat → Fin 36 := fun _ => 0

/-- A persisted order holding the token every `rCero` candidate collides
with. -/
def pedidoA : Pedido :=
  { pedido_id := 1, usuario_id := 1, zona_id := 1, token_recoger := "AAAAAAAA",
    total_pedido := 0, metodo_pago := .EFECTIVO, esta_pagado := false,
    estado := .PENDIENTE, delivery_asignado_id := none, fecha_pedido := some 0,
    fecha_confirmado := none, fecha_listo_cocina := none,
    fecha_en_reparto := none, fecha_entrega := none }

/-- A database whose only persisted token is `AAAAAAAA`. -/
def dbTok : DB :=
  { zonas := [], menus := [], usuarios := [], pedidos := [pedidoA],
    items := [], exclusiones := [] }

/-- The empty database. -/
def dbVacia : DB :=
  { zonas := [], menus := [], usuarios := [], pedidos := [], items := [],
    exclusiones := [] }

/-- An offering with 5 units of stock. -/
def menuCinco : MenuDia :=
  { menu_dia_id := 1, precio_menu := 10, publicado := true,
    cantidad_disponible := 5 }

/-- A database with one zone and the one offering `menuCinco`. -/
def dbDup : DB :=
  { zonas := [1], menus := [menuCinco], usuarios := [], pedidos := [],
    items := [], exclusiones := [] }

/-- A cart with two lines of quantity 3 referencing the same offering. -/
def reqDup : CrearPedidoRequest :=
  { zona_id := 1, metodo_pago := .EFECTIVO,
    items := [{ menu_dia_id := 1, cantidad := 3, exclusiones := [] },
              { menu_dia_id := 1, cantidad := 3, exclusiones := [] }] }

/-- A request referencing a zone that does not exist in `dbVacia`. -/
def reqZona : CrearPedidoRequest :=
  { zona_id := 1, metodo_pago := .EFECTIVO, items := [] }

/-- An administrator account. -/
def adminUser : Usuario := { usuario_id := 9, rol_id := 1, zona_reparto_id := none }

/-- The spec scenario order: `CONFIRMADO`, two lines of quantities 1 and 4. -/
def pedEsc : Pedido :=
  { pedido_id := 1, usuario_id := 4, zona_id := 1, token_recoger := "TOKEN111",
    total_pedido := 50, metodo_pago := .EFECTIVO, esta_pagado := false,
    estado := .CONFIRMADO, delivery_asignado_id := none, fecha_pedido := some 0,
    fecha_confirmado := some 1, fecha_listo_cocina := none,
    fecha_en_reparto := none, fecha_entrega := none }

/-- The spec scenario database: offerings with stocks 0 and 1, a `CONFIRMADO`
order with lines of quantities 1 and 4 against them. -/
def dbEsc : DB :=
  { zonas := [1],
    menus := [{ menu_dia_id := 1, precio_menu := 10, publicado := true,
                cantidad_disponible := 0 },
              { menu_dia_id := 2, precio_menu := 10, publicado := true,
                cantidad_disponible := 1 }],
    usuarios := [], pedidos := [pedEsc],
    items := [{ item_id := 1, pedido_id := 1, menu_dia_id := 1, cantidad := 1,
                precio_unitario := 10 },
              { item_id := 2, pedido_id := 1, menu_dia_id := 2, cantidad := 4,
                precio_unitario := 10 }],
    exclusiones := [] }

/-- A `CONFIRMADO` order whose confirmation timestamp is 100. -/
def pedC4 : Pedido :=
  { pedido_id := 1, usuario_id := 4, zona_id := 1, token_recoger := "TOKEN222",
    total_pedido := 20, metodo_pago := .EFECTIVO, esta_pagado := false,
    estado := .CONFIRMADO, delivery_asignado_id := none, fecha_pedido := some 0,
    fecha_confirmado := some 100, fecha_listo_cocina := none,
    fecha_en_reparto := none, fecha_entrega := none }

/-- Database for the idempotent-state-update check: `pedC4` with one line of
quantity 2 against `menuCinco`. -/
def dbC4 : DB :=
  { zonas := [1], menus := [menuCinco], usuarios := [], pedidos := [pedC4],
    items := [{ item_id := 1, pedido_id := 1, menu_dia_id := 1, cantidad := 2,
                precio_unitario := 10 }],
    exclusiones := [] }

/-- A delivered (`ENTREGADO`) order. -/
def pedEnt : Pedido :=
  { pedido_id := 1, usuario_id := 4, zona_id := 1, token_recoger := "TOKEN333",
    total_pedido := 20, metodo_pago := .EFECTIVO, esta_pagado := true,
    estado := .ENTREGADO, delivery_asignado_id := some 2,
    fecha_pedido := some 0, fecha_confirmado := some 1,
    fecha_listo_cocina := some 2, fecha_en_reparto := some 3,
    fecha_entrega := some 4 }

/-- Database with the delivered order `pedEnt`, one line of quantity 2
against an offering with stock 3. -/
def dbEnt : DB :=
  { zonas := [1],
    menus := [{ menu_dia_id := 1, precio_menu := 10, publicado := true,
                cantidad_disponible := 3 }],
    usuarios := [], pedidos := [pedEnt],
    items := [{ item_id := 1, pedido_id := 1, menu_dia_id := 1, cantidad := 2,
                precio_unitario := 10 }],
    exclusiones := [] }

/-- A `PENDIENTE` order owned by customer 5. -/
def pedPend : Pedido :=
  { pedido_id := 1, usuario_id := 5, zona_id := 1, token_recoger := "TOKEN444",
    total_pedido := 50, metodo_pago := .EFECTIVO, esta_pagado := false,
    estado := .PENDIENTE, delivery_asignado_id := none, fecha_pedido := some 0,
    fecha_confirmado := none, fecha_listo_cocina := none,
    fecha_en_reparto := none, fecha_entrega := none }

/-- Database where one line of `pedPend` references the deleted offering 9
and the other references the surviving offering 2 (stock 4). -/
def dbMiss : DB :=
  { zonas := [1],
    menus := [{ menu_dia_id := 2, precio_menu := 10, publicado := true,
                cantidad_disponible := 4 }],
    usuarios := [], pedidos := [pedPend],
    items := [{ item_id := 1, pedido_id := 1, menu_dia_id := 9, cantidad := 3,
                precio_unitario := 10 },
              { item_id := 2, pedido_id := 1, menu_dia_id := 2, cantidad := 2,
                precio_unitario := 10 }],
    exclusiones := [] }

/-- Courier number 2. -/
def courierB : Usuario := { usuario_id := 2, rol_id := 3, zona_reparto_id := some 1 }

/-- An order assigned to courier 2, ready for pickup. -/
def pedListo : Pedido :=
  { pedido_id := 1, usuario_id := 4, zona_id := 1, token_recoger := "TOKEN555",
    total_pedido := 20, metodo_pago := .QR, esta_pagado := false,
    estado := .LISTO_PARA_ENTREGA, delivery_asignado_id := some 2,
    fecha_pedido := some 0, fecha_confirmado := some 1,
    fecha_listo_cocina := some 2, fecha_en_reparto := none,
    fecha_entrega := none }

/-- Database with the ready order `pedListo`. -/
def dbListo : DB :=
  { zonas := [1], menus := [], usuarios := [courierB], pedidos := [pedListo],
    items := [], exclusiones := [] }

/-! ## Claim theorems -/

/-- C6: `generar_token_unico` with the default length 8 either returns an
8-character string over the uppercase-plus-digits alphabet that collides
with no persisted order token, or fails with `TokenExhausted` after 100
draws that all collide; it never returns a colliding token. -/
theorem C6_token_spec (db : DB) (r : Nat → Fin 36) :
    (∀ t, generar_token_unico db r 8 = .ok t →
        t.length = 8 ∧ (∀ c ∈ t.data, c ∈ caracteres)
          ∧ ∀ p ∈ db.pedidos, p.token_recoger ≠ t)
    ∧ ∀ e, generar_token_unico db r 8 = .error e →
        e = .TokenExhausted ∧
          ∀ i, i < 100 → ∃ p ∈ db.pedidos, p.token_recoger = tokenCandidato r i 8 := by
  constructor
  · intro t ht
    obtain ⟨⟨i, hti⟩, hne⟩ := tokenLoop_ok_spec db r 8 100 0 t ht
    subst hti
    exact ⟨tokenCandidato_length r i 8, tokenCandidato_chars r i 8, hne⟩
  · intro e he
    obtain ⟨he1, hall⟩ := tokenLoop_error_spec db r 8 100 0 e he
    exact ⟨he1, fun i hi => hall i (Nat.zero_le i) (by omega)⟩

/-- Witness for C6: against a database whose only token is `AAAAAAAA` and a
draw stream that always produces `AAAAAAAA`, all 100 attempts collide and
the generator fails with `TokenExhausted`. -/
theorem C6_token_spec_witness :
    (Err.TokenExhausted = Err.TokenExhausted ∧
      ∀ i, i < 100 → ∃ p ∈ dbTok.pedidos,
        p.token_recoger = tokenCandidato rCero i 8) :=
  (C6_token_spec dbTok rCero).2 .TokenExhausted (by decide)

/-- C1 (code bug): a cart with two lines of quantity 3 on the same offering
with 5 units of stock is accepted by `crear_pedido` and leaves the offering
with stock −1, although the total decremented (6) exceeds the available
quantity before the request (5). -/
theorem C1_crear_pedido_oversell :
    (crear_pedido dbDup reqDup 7 rCero 0).isOk = true ∧
      ((crear_pedido dbDup reqDup 7 rCero 0).toOption.map
        (fun res => stockOf res.1.menus 1)) = some (some (-1)) := by
  decide

/-- C2: whenever `crear_pedido` rejects a request — zone missing, offering
missing, offering not published, insufficient stock, or token exhaustion —
the session state carried at the raise point is exactly the initial state:
no stock was decremented and no order, line or exclusion row persisted. -/
theorem C2_crear_pedido_error_no_mutation (db : DB) (req : CrearPedidoRequest)
    (uid : Nat) (r : Nat → Fin 36) (now : Nat) (e : Err) (db2 : DB) :
    crear_pedido db req uid r now = .error (e, db2) → db2 = db := by
  intro h
  simp only [crear_pedido] at h
  split at h
  · simp only [Except.error.injEq, Prod.mk.injEq] at h
    exact h.2.symm
  · split at h
    · simp only [Except.error.injEq, Prod.mk.injEq] at h
      exact h.2.symm
    · split at h
      · simp only [Except.error.injEq, Prod.mk.injEq] at h
        exact h.2.symm
      · exact Except.noConfusion h

/-- Witness for C2: a request naming an absent zone is rejected with
`ZonaNotFound` and the carried state is the initial (empty) database. -/
theorem C2_crear_pedido_error_no_mutation_witness :
    crear_pedido dbVacia reqZona 0 rCero 0 = .error (.ZonaNotFound, dbVacia)
      ∧ dbVacia = dbVacia :=
  ⟨by decide,
    C2_crear_pedido_error_no_mutation dbVacia reqZona 0 rCero 0 .ZonaNotFound
      dbVacia (by decide)⟩

/-- C3: cancelling a not-yet-cancelled (and not delivered) order through the
admin cancel endpoint succeeds, adds each line's quantity back to its
offering exactly once (stock grows by the summed quantities of the order's
lines per offering), sets the state to `CANCELADO`, and a second
cancellation attempt fails with `AlreadyCancelled` without restocking. -/
theorem C3_cancelar_admin_restock_once (db : DB) (pid : Nat)
    (caller : Usuario) (p : Pedido) (hadmin : caller.rol_id = 1)
    (hfind : pedidoOf db pid = some p)
    (hnc : p.estado ≠ .CANCELADO) (hnd : p.estado ≠ .ENTREGADO) :
    (cancelar_pedido_admin db pid caller).isOk = true
    ∧ ∀ db1, cancelar_pedido_admin db pid caller = .ok db1 →
        (∀ id, stockOf db1.menus id
          = (stockOf db.menus id).map
              (fun s => s + sumCantidad id
                (db.items.filter (fun it => it.pedido_id == pid))))
        ∧ (pedidoOf db1 pid).map (fun q => q.estado) = some .CANCELADO
        ∧ cancelar_pedido_admin db1 pid caller = .error (.AlreadyCancelled, db1) := by
  have hrol2 : ¬ caller.rol_id ≠ 1 := fun hc => hc hadmin
  have hfindraw : db.pedidos.find? (fun q => q.pedido_id == pid) = some p := hfind
  have hcall : cancelar_pedido_admin db pid caller = .ok
      { db with
        menus := restockItems db.menus
          (db.items.filter (fun it => it.pedido_id == pid)),
        pedidos := updateFirst (fun q => q.pedido_id == pid)
          (fun q => { q with estado := .CANCELADO }) db.pedidos } := by
    unfold cancelar_pedido_admin
    rw [if_neg hrol2, hfindraw]
    simp only [if_neg hnc, if_neg hnd]
  constructor
  · rw [hcall]; rfl
  · intro db1 hdb1
    rw [hcall] at hdb1
    injection hdb1 with hdb1
    subst hdb1
    have hfind2 : (updateFirst (fun q => q.pedido_id == pid)
        (fun q => { q with estado := EstadoDelPedido.CANCELADO })
        db.pedidos).find? (fun q => q.pedido_id == pid)
        = some { p with estado := .CANCELADO } := by
      rw [find?_pedido_update db.pedidos pid
        (fun q => { q with estado := .CANCELADO }) (fun q => rfl), hfindraw]
      rfl
    refine ⟨fun id => stockOf_restockItems _ db.menus id, ?_, ?_⟩
    · show ((updateFirst (fun q => q.pedido_id == pid)
        (fun q => { q with estado := EstadoDelPedido.CANCELADO })
        db.pedidos).find? (fun q => q.pedido_id == pid)).map
          (fun q => q.estado) = some .CANCELADO
      rw [hfind2]
      rfl
    · unfold cancelar_pedido_admin
      rw [if_neg hrol2]
      dsimp only
      rw [hfind2]
      simp

/-- Witness for C3: the spec scenario — admin cancels the `CONFIRMADO` order
`pedEsc` (lines of quantities 1 and 4 against offerings with stocks 0
and 1). -/
theorem C3_cancelar_admin_restock_once_witness :
    (cancelar_pedido_admin dbEsc 1 adminUser).isOk = true
    ∧ ∀ db1, cancelar_pedido_admin dbEsc 1 adminUser = .ok db1 →
        (∀ id, stockOf db1.menus id
          = (stockOf dbEsc.menus id).map
              (fun s => s + sumCantidad id
                (dbEsc.items.filter (fun it => it.pedido_id == 1))))
        ∧ (pedidoOf db1 1).map (fun q => q.estado) = some .CANCELADO
        ∧ cancelar_pedido_admin db1 1 adminUser = .error (.AlreadyCancelled, db1) :=
  C3_cancelar_admin_restock_once dbEsc 1 adminUser pedEsc rfl (by decide)
    (by decide) (by decide)

/-- C10: on cancellation (customer delete or admin cancel), a line whose
offering no longer exists is silently skipped: the cancellation succeeds,
and every surviving offering's stock grows by the summed quantities of the
order's lines referencing it (the `map` over `stockOf` makes missing
offerings no-ops). -/
theorem C10_cancel_missing_offering_skipped (db : DB) (pid uid : Nat)
    (caller : Usuario) (p : Pedido)
    (hfind : pedidoOf db pid = some p)
    (hmiss : ∃ it ∈ db.items, it.pedido_id = pid
      ∧ stockOf db.menus it.menu_dia_id = none) :
    (caller.rol_id = 1 → p.estado ≠ .CANCELADO → p.estado ≠ .ENTREGADO →
      (cancelar_pedido_admin db pid caller).isOk = true
        ∧ ∀ db1, cancelar_pedido_admin db pid caller = .ok db1 →
            ∀ id, stockOf db1.menus id
              = (stockOf db.menus id).map
                  (fun s => s + sumCantidad id
                    (db.items.filter (fun it => it.pedido_id == pid))))
    ∧ (p.usuario_id = uid → p.estado = .PENDIENTE →
      (cancelar_pedido db pid uid).isOk = true
        ∧ ∀ db1, cancelar_pedido db pid uid = .ok db1 →
            ∀ id, stockOf db1.menus id
              = (stockOf db.menus id).map
                  (fun s => s + sumCantidad id
                    (db.items.filter (fun it => it.pedido_id == pid)))) := by
  have hfindraw : db.pedidos.find? (fun q => q.pedido_id == pid) = some p := hfind
  constructor
  · intro hadmin hnc hnd
    have hrol2 : ¬ caller.rol_id ≠ 1 := fun hc => hc hadmin
    have hcall : cancelar_pedido_admin db pid caller = .ok
        { db with
          menus := restockItems db.menus
            (db.items.filter (fun it => it.pedido_id == pid)),
          pedidos := updateFirst (fun q => q.pedido_id == pid)
            (fun q => { q with estado := .CANCELADO }) db.pedidos } := by
      unfold cancelar_pedido_admin
      rw [if_neg hrol2, hfindraw]
      simp only [if_neg hnc, if_neg hnd]
    constructor
    · rw [hcall]; rfl
    · intro db1 hdb1
      rw [hcall] at hdb1
      injection hdb1 with h2
      subst h2
      exact fun id => stockOf_restockItems _ db.menus id
  · intro howner hpend
    have h1 : ¬ p.usuario_id ≠ uid := fun hc => hc howner
    have h2 : ¬ p.estado ≠ .PENDIENTE := fun hc => hc hpend
    have hcall : cancelar_pedido db pid uid = .ok
        { db with
          menus := restockItems db.menus
            (db.items.filter (fun it => it.pedido_id == pid)),
          pedidos := db.pedidos.filter (fun q => !(q.pedido_id == pid)),
          items := db.items.filter (fun it => !(it.pedido_id == pid)),
          exclusiones := db.exclusiones.filter
            (fun e => !(((db.items.filter (fun it => it.pedido_id == pid)).map
              (fun it => it.item_id)).contains e.item_id)) } := by
      unfold cancelar_pedido
      rw [hfindraw]
      simp only [if_neg h1, if_neg h2]
    constructor
    · rw [hcall]; rfl
    · intro db1 hdb1
      rw [hcall] at hdb1
      injection hdb1 with h3
      subst h3
      exact fun id => stockOf_restockItems _ db.menus id

/-- Witness for C10: cancelling `pedPend` in `dbMiss`, whose first line
references the deleted offering 9, through both paths. -/
theorem C10_cancel_missing_offering_skipped_witness :
    (adminUser.rol_id = 1 → pedPend.estado ≠ .CANCELADO →
        pedPend.estado ≠ .ENTREGADO →
      (cancelar_pedido_admin dbMiss 1 adminUser).isOk = true
        ∧ ∀ db1, cancelar_pedido_admin dbMiss 1 adminUser = .ok db1 →
            ∀ id, stockOf db1.menus id
              = (stockOf dbMiss.menus id).map
                  (fun s => s + sumCantidad id
                    (dbMiss.items.filter (fun it => it.pedido_id == 1))))
    ∧ (pedPend.usuario_id = 5 → pedPend.estado = .PENDIENTE →
      (cancelar_pedido dbMiss 1 5).isOk = true
        ∧ ∀ db1, cancelar_pedido dbMiss 1 5 = .ok db1 →
            ∀ id, stockOf db1.menus id
              = (stockOf dbMiss.menus id).map
                  (fun s => s + sumCantidad id
                    (dbMiss.items.filter (fun it => it.pedido_id == 1)))) :=
  C10_cancel_missing_offering_skipped dbMiss 1 5 adminUser pedPend (by decide)
    ⟨{ item_id := 1, pedido_id := 1, menu_dia_id := 9, cantidad := 3,
       precio_unitario := 10 }, by decide, by decide, by decide⟩

/-- C4 (code bug): setting the state of the `CONFIRMADO` order `pedC4`
(whose confirmation timestamp is 100) again to `CONFIRMADO` at time 200
does not leave the order unchanged — the stock is not restocked (it stays
5), but `fecha_confirmado` is re-stamped from 100 to 200, because the
timestamp block of `actualizar_estado_pedido` sits outside the same-state
guard. -/
theorem C4_same_state_restamps_timestamp :
    ((actualizar_estado_pedido dbC4 1 .CONFIRMADO adminUser 200).toOption.map
        (fun db1 => ((pedidoOf db1 1).map (fun q => q.fecha_confirmado),
          stockOf db1.menus 1)))
      = some (some (some 200), some 5)
    ∧ (pedidoOf dbC4 1).map (fun q => q.fecha_confirmado) = some (some 100) := by
  decide

/-- C5 counterexample: the admin state-update endpoint accepts target
`CANCELADO` on the delivered order `pedEnt` — the request is not rejected;
it succeeds, restocks the line (stock 3 becomes 5) and sets the state to
`CANCELADO`, refuting the claim that every cancellation path rejects
delivered orders. -/
theorem C5_entregado_admin_estado_counterexample :
    (actualizar_estado_pedido dbEnt 1 .CANCELADO adminUser 50).isOk = true
    ∧ ((actualizar_estado_pedido dbEnt 1 .CANCELADO adminUser 50).toOption.map
        (fun db1 => ((pedidoOf db1 1).map (fun q => q.estado),
          stockOf db1.menus 1)))
      = some (some .CANCELADO, some 5) := by
  decide

/-- C5 (amended): for a delivered order, the customer delete path and the
admin explicit cancel endpoint reject the cancellation (leaving the carried
state untouched), while the admin state-update endpoint with target
`CANCELADO` succeeds unconditionally, restocking the order's lines and
setting the state to `CANCELADO`. -/
theorem C5_delivered_cancellation_behaviour (db : DB) (pid uid : Nat)
    (caller : Usuario) (p : Pedido) (ahora : Nat)
    (hfind : pedidoOf db pid = some p) (hdel : p.estado = .ENTREGADO) :
    (p.usuario_id = uid →
      cancelar_pedido db pid uid = .error (.CannotCancelState .ENTREGADO, db))
    ∧ (caller.rol_id = 1 →
      cancelar_pedido_admin db pid caller
        = .error (.CannotCancelDelivered, db))
    ∧ (caller.rol_id = 1 →
      ∃ db1, actualizar_estado_pedido db pid .CANCELADO caller ahora = .ok db1
        ∧ (pedidoOf db1 pid).map (fun q => q.estado) = some .CANCELADO
        ∧ ∀ id, stockOf db1.menus id
            = (stockOf db.menus id).map
                (fun s => s + sumCantidad id
                  (db.items.filter (fun it => it.pedido_id == pid)))) := by
  have hfindraw : db.pedidos.find? (fun q => q.pedido_id == pid) = some p := hfind
  have hnc : p.estado ≠ .CANCELADO := by rw [hdel]; decide
  refine ⟨?_, ?_, ?_⟩
  · intro howner
    have h1 : ¬ p.usuario_id ≠ uid := fun hc => hc howner
    have h2 : p.estado ≠ .PENDIENTE := by rw [hdel]; decide
    unfold cancelar_pedido
    rw [hfindraw]
    simp only [if_neg h1, if_pos h2]
    rw [hdel]
  · intro hadmin
    have hrol2 : ¬ caller.rol_id ≠ 1 := fun hc => hc hadmin
    unfold cancelar_pedido_admin
    rw [if_neg hrol2, hfindraw]
    simp only [if_neg hnc, if_pos hdel]
  · intro hadmin
    have hrol2 : ¬ caller.rol_id ≠ 1 := fun hc => hc hadmin
    have hne : p.estado ≠ EstadoDelPedido.CANCELADO := hnc
    have hcall : actualizar_estado_pedido db pid .CANCELADO caller ahora = .ok
        { db with
          menus := restockItems db.menus
            (db.items.filter (fun it => it.pedido_id == pid)),
          pedidos := updateFirst (fun q => q.pedido_id == pid)
            (fun q => { stampFecha .CANCELADO ahora q with
              estado := .CANCELADO }) db.pedidos } := by
      unfold actualizar_estado_pedido
      rw [if_neg hrol2, hfindraw]
      simp only [if_neg hne, if_pos rfl, if_pos hne]
      simp
    refine ⟨_, hcall, ?_, fun id => stockOf_restockItems _ db.menus id⟩
    show ((updateFirst (fun q => q.pedido_id == pid)
        (fun q => { stampFecha .CANCELADO ahora q with
          estado := EstadoDelPedido.CANCELADO })
        db.pedidos).find? (fun q => q.pedido_id == pid)).map
          (fun q => q.estado) = some .CANCELADO
    rw [find?_pedido_update db.pedidos pid
      (fun q => { stampFecha .CANCELADO ahora q with
        estado := EstadoDelPedido.CANCELADO }) (fun q => rfl), hfindraw]
    rfl

/-- Witness for C5: the delivered order `pedEnt` of `dbEnt`, customer 4 and
the administrator. -/
theorem C5_delivered_cancellation_behaviour_witness :
    (pedEnt.usuario_id = 4 →
      cancelar_pedido dbEnt 1 4 = .error (.CannotCancelState .ENTREGADO, dbEnt))
    ∧ (adminUser.rol_id = 1 →
      cancelar_pedido_admin dbEnt 1 adminUser
        = .error (.CannotCancelDelivered, dbEnt))
    ∧ (adminUser.rol_id = 1 →
      ∃ db1, actualizar_estado_pedido dbEnt 1 .CANCELADO adminUser 50 = .ok db1
        ∧ (pedidoOf db1 1).map (fun q => q.estado) = some .CANCELADO
        ∧ ∀ id, stockOf db1.menus id
            = (stockOf dbEnt.menus id).map
                (fun s => s + sumCantidad id
                  (dbEnt.items.filter (fun it => it.pedido_id == 1)))) :=
  C5_delivered_cancellation_behaviour dbEnt 1 4 adminUser pedEnt 50 (by decide)
    (by decide)

/-- C7: for a courier caller, `tomar_pedido` fails with `NotAssigned` when
the order is assigned to someone else (state carried unchanged); succeeds
from `LISTO_PARA_ENTREGA` when the caller is the assigned courier, setting
the state to `EN_REPARTO` and stamping `fecha_en_reparto`; and fails with
`InvalidTransition` for the assigned courier in any other source state. -/
theorem C7_tomar_pedido_transitions (db : DB) (pid : Nat) (caller : Usuario)
    (p : Pedido) (now : Nat) (hrol : caller.rol_id = 3)
    (hfind : pedidoOf db pid = some p) :
    (p.delivery_asignado_id ≠ some caller.usuario_id →
      tomar_pedido db pid caller now = .error (.NotAssigned, db))
    ∧ (p.delivery_asignado_id = some caller.usuario_id →
        p.estado = .LISTO_PARA_ENTREGA →
        ∃ db1, tomar_pedido db pid caller now = .ok db1
          ∧ (pedidoOf db1 pid).map (fun q => (q.estado, q.fecha_en_reparto))
              = some (.EN_REPARTO, some now)
          ∧ db1.menus = db.menus)
    ∧ (p.delivery_asignado_id = some caller.usuario_id →
        p.estado ≠ .LISTO_PARA_ENTREGA →
        tomar_pedido db pid caller now
          = .error (.InvalidTransition p.estado, db)) := by
  have hfindraw : db.pedidos.find? (fun q => q.pedido_id == pid) = some p := hfind
  have hgate : ¬((!(caller.rol_id == 1 || caller.rol_id == 3)) = true) := by
    simp [hrol]
  refine ⟨?_, ?_, ?_⟩
  · intro hmismatch
    unfold tomar_pedido
    rw [if_neg hgate, hfindraw]
    simp only [if_pos hmismatch]
  · intro hmine hlisto
    have h1 : ¬ p.delivery_asignado_id ≠ some caller.usuario_id :=
      fun hc => hc hmine
    have h2 : ¬ p.estado ≠ .LISTO_PARA_ENTREGA := fun hc => hc hlisto
    have hcall : tomar_pedido db pid caller now = .ok
        { db with
          pedidos := updateFirst (fun q => q.pedido_id == pid)
            (fun q =>
              { q with
                estado := .EN_REPARTO,
                fecha_en_reparto := some now }) db.pedidos } := by
      unfold tomar_pedido
      rw [if_neg hgate, hfindraw]
      simp only [if_neg h1, if_neg h2]
    refine ⟨_, hcall, ?_, rfl⟩
    show ((updateFirst (fun q => q.pedido_id == pid)
        (fun q =>
          { q with
            estado := EstadoDelPedido.EN_REPARTO,
            fecha_en_reparto := some now })
        db.pedidos).find? (fun q => q.pedido_id == pid)).map
          (fun q => (q.estado, q.fecha_en_reparto))
        = some (.EN_REPARTO, some now)
    rw [find?_pedido_update db.pedidos pid
      (fun q =>
        { q with
          estado := EstadoDelPedido.EN_REPARTO,
          fecha_en_reparto := some now }) (fun q => rfl), hfindraw]
    rfl
  · intro hmine hother
    have h1 : ¬ p.delivery_asignado_id ≠ some caller.usuario_id :=
      fun hc => hc hmine
    unfold tomar_pedido
    rw [if_neg hgate, hfindraw]
    simp only [if_neg h1, if_pos hother]

/-- Witness for C7: courier 2 picks up the ready order `pedListo` assigned
to them at time 9. -/
theorem C7_tomar_pedido_transitions_witness :
    (pedListo.delivery_asignado_id ≠ some courierB.usuario_id →
      tomar_pedido dbListo 1 courierB 9 = .error (.NotAssigned, dbListo))
    ∧ (pedListo.delivery_asignado_id = some courierB.usuario_id →
        pedListo.estado = .LISTO_PARA_ENTREGA →
        ∃ db1, tomar_pedido dbListo 1 courierB 9 = .ok db1
          ∧ (pedidoOf db1 1).map (fun q => (q.estado, q.fecha_en_reparto))
              = some (.EN_REPARTO, some 9)
          ∧ db1.menus = dbListo.menus)
    ∧ (pedListo.delivery_asignado_id = some courierB.usuario_id →
        pedListo.estado ≠ .LISTO_PARA_ENTREGA →
        tomar_pedido dbListo 1 courierB 9
          = .error (.InvalidTransition pedListo.estado, dbListo)) :=
  C7_tomar_pedido_transitions dbListo 1 courierB pedListo 9 rfl (by decide)

/-! ## Notification-bus fixtures -/

/-- The event of a state-change notification targeted at customer 7. -/
def eEv : Evento :=
  (crear_evento gestorInicial "CAMBIO_ESTADO" 4 "Pedido" "msg" (some 7) 10).1

/-- The bus after publishing `eEv` (stored in both the role-4 buffer and the
user-7 buffer). -/
def gEv : GestorNotificaciones :=
  (crear_evento gestorInicial "CAMBIO_ESTADO" 4 "Pedido" "msg" (some 7) 10).2

/-- C8: the notification query never returns an event whose
`destinatario_id` is set to someone other than the caller — every returned
event is a broadcast or targeted at the querying user id. -/
theorem C8_query_no_foreign_personal (g : GestorNotificaciones)
    (rol_id : Nat) (usuario_id : Option Nat) (desde : Option Nat)
    (tipo : Option String) (limit now : Nat) (e : Evento)
    (he : e ∈ obtener_eventos_recientes g rol_id usuario_id desde tipo limit now) :
    e.destinatario_id = none ∨ e.destinatario_id = usuario_id := by
  simp only [obtener_eventos_recientes] at he
  have h1 := (List.mem_insertionSort fechaGe).1 (List.mem_of_mem_take he)
  have h2 := (List.mem_filter.1 h1).2
  unfold eventoPasa at h2
  simp only [Bool.and_eq_true, Bool.or_eq_true] at h2
  obtain ⟨⟨-, -⟩, h3⟩ := h2
  rcases h3 with h3 | h3
  · exact Or.inl (Option.isNone_iff_eq_none.1 h3)
  · exact Or.inr (by simpa using h3)

/-- Witness for C8: querying `gEv` as customer 7 returns `eEv`, whose target
user is the caller. -/
theorem C8_query_no_foreign_personal_witness :
    eEv.destinatario_id = none ∨ eEv.destinatario_id = some 7 :=
  C8_query_no_foreign_personal gEv 4 (some 7) (some 0) none 50 10 eEv
    (by decide)

/-- C9 counterexample: the event `eEv` is stored in both the role-4 buffer
and the user-7 buffer, and the query run by customer 7 over role 4 returns
it twice — refuting the claim that each visible event occurs at most once. -/
theorem C9_query_duplicate_counterexample :
    obtener_eventos_recientes gEv 4 (some 7) (some 0) none 50 10 = [eEv, eEv]
    ∧ List.count eEv
        (obtener_eventos_recientes gEv 4 (some 7) (some 0) none 50 10) = 2 := by
  decide

/-- C9 (amended): the query result is sorted newest-first, has length at
most `limit`, contains only events passing the `since` and type filters,
and each event occurs at most as often as it occurs in the caller's
personal buffer plus the role buffer — so an event stored in both (a
personal event whose target role is the queried role) can appear twice. -/
theorem C9_query_shape (g : GestorNotificaciones) (rol_id : Nat)
    (usuario_id : Option Nat) (desde : Option Nat) (tipo : Option String)
    (limit now : Nat) :
    (obtener_eventos_recientes g rol_id usuario_id desde tipo limit now).Pairwise
        (fun a b => b.fecha_creacion ≤ a.fecha_creacion)
    ∧ (obtener_eventos_recientes g rol_id usuario_id desde tipo limit now).length
        ≤ limit
    ∧ (∀ e ∈ obtener_eventos_recientes g rol_id usuario_id desde tipo limit now,
        (∀ d, desde = some d → d ≤ e.fecha_creacion)
        ∧ ∀ ty, tipo = some ty → e.tipo = ty)
    ∧ ∀ e : Evento,
        List.count e (obtener_eventos_recientes g rol_id usuario_id desde tipo limit now)
          ≤ List.count e (personalesDe g usuario_id)
            + List.count e (g.eventos_por_rol rol_id) := by
  refine ⟨?_, ?_, ?_, ?_⟩
  · simp only [obtener_eventos_recientes]
    exact List.Pairwise.imp (fun h => h)
      ((List.sorted_insertionSort fechaGe _).sublist (List.take_sublist _ _))
  · simp only [obtener_eventos_recientes]
    exact List.length_take_le _ _
  · intro e he
    simp only [obtener_eventos_recientes] at he
    have h1 := (List.mem_insertionSort fechaGe).1 (List.mem_of_mem_take he)
    have h2 := (List.mem_filter.1 h1).2
    unfold eventoPasa at h2
    simp only [Bool.and_eq_true, Bool.or_eq_true] at h2
    obtain ⟨⟨hfecha, htipo⟩, -⟩ := h2
    constructor
    · intro d hd
      rw [hd] at hfecha
      simpa using hfecha
    · intro ty hty
      rw [hty] at htipo
      rcases htipo with h | h
      · exact absurd h (by simp)
      · simpa using (beq_iff_eq.1 h).symm
  · intro e
    simp only [obtener_eventos_recientes]
    calc List.count e ((List.insertionSort fechaGe
          ((personalesDe g usuario_id ++ g.eventos_por_rol rol_id).filter
            (eventoPasa (match desde with | some d => d | none => now - 5)
              tipo usuario_id))).take limit)
        ≤ List.count e (List.insertionSort fechaGe
          ((personalesDe g usuario_id ++ g.eventos_por_rol rol_id).filter
            (eventoPasa (match desde with | some d => d | none => now - 5)
              tipo usuario_id))) :=
          (List.take_sublist _ _).count_le e
      _ = List.count e ((personalesDe g usuario_id
            ++ g.eventos_por_rol rol_id).filter
          (eventoPasa (match desde with | some d => d | none => now - 5)
            tipo usuario_id)) :=
          (List.perm_insertionSort fechaGe _).count_eq e
      _ ≤ List.count e (personalesDe g usuario_id
            ++ g.eventos_por_rol rol_id) :=
          (List.filter_sublist _).count_le e
      _ = List.count e (personalesDe g usuario_id)
            + List.count e (g.eventos_por_rol rol_id) :=
          List.count_append e _ _

/-- Witness for C9 (amended), instantiated at the bus `gEv` queried by
customer 7 over role 4. -/
theorem C9_query_shape_witness :
    (obtener_eventos_recientes gEv 4 (some 7) (some 0) none 50 10).Pairwise
        (fun a b => b.fecha_creacion ≤ a.fecha_creacion)
    ∧ (obtener_eventos_recientes gEv 4 (some 7) (some 0) none 50 10).length ≤ 50
    ∧ (∀ e ∈ obtener_eventos_recientes gEv 4 (some 7) (some 0) none 50 10,
        (∀ d, (some 0 : Option Nat) = some d → d ≤ e.fecha_creacion)
        ∧ ∀ ty, (none : Option String) = some ty → e.tipo = ty)
    ∧ ∀ e : Evento,
        List.count e (obtener_eventos_recientes gEv 4 (some 7) (some 0) none 50 10)
          ≤ List.count e (personalesDe gEv (some 7))
            + List.count e (gEv.eventos_por_rol 4) :=
  C9_query_shape gEv 4 (some 7) (some 0) none 50 10

end Solandre
